import Mathlib

/-!
# Verification of the xk6-dns DNS client core

A shallow embedding, in Lean 4, of the repository's core logic: the
nameserver address parser (`ParseNameserverAddr`, `parseHostAndPort`, and the
older `resolveOptions.ParseNameserver` from the goja-based module), the
record-type model (`record_type.go`), and the query-construction and
answer-decoding phases of `Client.Resolve` (client.go).

Go standard-library functions the code relies on (`net.SplitHostPort`,
`net.ParseIP`, `net.IP.String`, `strconv.Atoi`, `strconv.Itoa`) are embedded
faithfully from their Go sources, specialised to the behaviour the repository
observes.  Go strings are modelled as `List Char` (all inputs of interest are
ASCII, so Go's byte indexing coincides with character indexing); Go's `net.IP`
(a byte slice that may be nil) is modelled as `List Nat`, the empty list
standing for Go's nil slice.
-/

set_option autoImplicit false

deriving instance DecidableEq for Except

/-- Bytes of a Go `net.IP` value; `[]` models Go's nil slice. -/
abbrev GoIP := List Nat

/-! ## Character-list utilities (Go `strings` / `bytealg` helpers) -/

/-- Go `strings.ContainsRune` on the characters of a string. -/
def containsRune : List Char → Char → Bool
  | [], _ => false
  | a :: as, c => if a = c then true else containsRune as c

/-- Number of occurrences of a rune, used to state "contains multiple colons". -/
def countRune : List Char → Char → Nat
  | [], _ => 0
  | a :: as, c => (if a = c then 1 else 0) + countRune as c

/-- Go `bytealg.IndexByteString`: index of the first occurrence, if any. -/
def byteIndex : List Char → Char → Option Nat
  | [], _ => none
  | a :: as, c => if a = c then some 0 else (byteIndex as c).map (· + 1)

/-- Go `last` (net/ipsock.go): index of the last occurrence, if any. -/
def lastIdx : List Char → Char → Option Nat
  | [], _ => none
  | a :: as, c =>
    match lastIdx as c with
    | some i => some (i + 1)
    | none => if a = c then some 0 else none

/-! ## `strconv.Atoi`

Optional sign followed by at least one decimal digit, 64-bit range checked;
every failure (syntax or range) is a non-nil error, which is all the
repository inspects, so errors are collapsed to `Unit`. -/

/-- Numeric value of a decimal digit character. -/
def digitVal (c : Char) : Nat := c.toNat - '0'.toNat

/-- Go `strconv.Atoi` on the characters of a string. -/
def atoi (s : List Char) : Except Unit Int :=
  match s with
  | [] => .error ()
  | c0 :: rest =>
    let neg := c0 = '-'
    let digits := if c0 = '-' ∨ c0 = '+' then rest else c0 :: rest
    if digits = [] then .error ()
    else if digits.all Char.isDigit then
      let n : Nat := digits.foldl (fun acc c => acc * 10 + digitVal c) 0
      let v : Int := if neg then -(n : Int) else (n : Int)
      if v < -(2 ^ 63) ∨ (2 ^ 63 - 1 : Int) < v then .error () else .ok v
    else .error ()

/-! ## `net.ParseIP` (via `netip.ParseAddr`) -/

/-- Go `netip.parseIPv4Fields`: dotted-decimal parse of exactly four octets,
each `0..255`, at least one digit per field, no leading zeros.  The running
state is the current octet value, the number of digits seen in the current
octet, and the previously completed octets. -/
def parseIPv4Fields : List Char → Nat → Nat → List Nat → Option (List Nat)
  | [], val, _, acc =>
    if acc.length < 3 then none else some (acc ++ [val])
  | c :: rest, val, digLen, acc =>
    if c.isDigit then
      if digLen = 1 ∧ val = 0 then none      -- leading zero in octet
      else
        let val := val * 10 + digitVal c
        if 255 < val then none               -- octet value > 255
        else parseIPv4Fields rest val (digLen + 1) acc
    else if c = '.' then
      if digLen = 0 then none                -- empty octet (".x" or "..")
      else if rest = [] then none            -- trailing dot
      else if acc.length = 3 then none       -- more than four octets
      else parseIPv4Fields rest 0 0 (acc ++ [val])
    else none                                -- unexpected character

/-- Go `netip.parseIPv4`: the four octet values of a dotted-decimal literal. -/
def parseIPv4 (s : List Char) : Option (List Nat) :=
  parseIPv4Fields s 0 0 []

/-- Hex digit scan of `netip.parseIPv6`: consume leading hex digits,
accumulating at most `0xffff`; returns the accumulator and the number of
characters consumed, or an error on 16-bit overflow. -/
def scanHexGroup : List Char → Nat → Nat → Except Unit (Nat × Nat)
  | [], acc, off => .ok (acc, off)
  | c :: rest, acc, off =>
    if c.isDigit then
      let acc := acc * 16 + digitVal c
      if 65535 < acc then .error () else scanHexGroup rest acc (off + 1)
    else if 'a' ≤ c ∧ c ≤ 'f' then
      let acc := acc * 16 + (c.toNat - 'a'.toNat + 10)
      if 65535 < acc then .error () else scanHexGroup rest acc (off + 1)
    else if 'A' ≤ c ∧ c ≤ 'F' then
      let acc := acc * 16 + (c.toNat - 'A'.toNat + 10)
      if 65535 < acc then .error () else scanHexGroup rest acc (off + 1)
    else .ok (acc, off)

/-- Sixteen zero bytes. -/
def zeros16 : List Nat := List.replicate 16 0

/-- Ellipsis expansion at the end of `netip.parseIPv6`: insert `16 - i` zero
bytes at position `e` of the `i` bytes parsed so far. -/
def expandEllipsis (ip : List Nat) (e i : Nat) : List Nat :=
  ip.take e ++ List.replicate (16 - i) 0 ++ (ip.drop e).take (i - e)

/-- Main loop of `netip.parseIPv6` (`for i < 16`), fuel-driven; each iteration
consumes at least one character, so fuel `s.length + 1` never runs out before
the loop exits.  Returns the byte array, the number of bytes filled, the
unconsumed remainder, and the ellipsis position. -/
def parseIPv6Loop :
    Nat → List Char → Nat → List Nat → Option Nat →
    Option (List Nat × Nat × List Char × Option Nat)
  | 0, _, _, _, _ => none
  | fuel + 1, s, i, ip, ellipsis =>
    if 16 ≤ i then some (ip, i, s, ellipsis)
    else
      match scanHexGroup s 0 0 with
        | .error _ => none
        | .ok (acc, off) =>
          if off = 0 then none                       -- no digits in the group
          else if s.get? off = some '.' then         -- trailing embedded IPv4
            if ellipsis = none ∧ i ≠ 12 then none
            else if 16 < i + 4 then none
            else
              match parseIPv4 s with
              | none => none
              | some fields =>
                match fields with
                | [a, b, c, d] =>
                  let ip := ((((ip.set i a).set (i + 1) b).set (i + 2) c).set (i + 3) d)
                  some (ip, i + 4, [], ellipsis)
                | _ => none
          else
            let ip := (ip.set i (acc / 256)).set (i + 1) (acc % 256)
            let i := i + 2
            let s := s.drop off
            if s = [] then some (ip, i, [], ellipsis)
            else if s.head? ≠ some ':' then none
            else if s.length = 1 then none           -- colon at end of string
            else
              let s := s.drop 1
              if s.head? = some ':' then
                if ellipsis.isSome then none         -- second "::"
                else
                  let ellipsis := some i
                  let s := s.drop 1
                  if s = [] then some (ip, i, [], ellipsis)
                  else parseIPv6Loop fuel s i ip ellipsis
              else parseIPv6Loop fuel s i ip ellipsis

/-- Go `netip.parseIPv6`: returns the sixteen address bytes and the zone
suffix (empty when no `%` is present). -/
def parseIPv6 (full : List Char) : Option (List Nat × List Char) :=
  let hasZone := (byteIndex full '%').isSome
  let s := match byteIndex full '%' with
    | some k => full.take k
    | none => full
  let zone := match byteIndex full '%' with
    | some k => full.drop (k + 1)
    | none => []
  if hasZone ∧ zone = [] then none                   -- "%" with empty zone
  else
    let leading := s.head? = some ':' ∧ (s.drop 1).head? = some ':'
    let s1 := if leading then s.drop 2 else s
    let ellipsis : Option Nat := if leading then some 0 else none
    if leading ∧ s1 = [] then some (zeros16, zone)   -- the string "::"
    else
      match parseIPv6Loop (s1.length + 1) s1 0 zeros16 ellipsis with
      | none => none
      | some (ip, i, s2, ell) =>
        if s2 ≠ [] then none                         -- unused characters left
        else if i < 16 then
          match ell with
          | none => none                             -- address too short
          | some e => some (expandEllipsis ip e i, zone)
        else if ell.isSome then none                 -- "::" stands for no group
        else some (ip, zone)

/-- Four IPv4 octets as a 16-byte IPv4-in-IPv6 (`As16`) byte list. -/
def v4As16 (fields : List Nat) : List Nat :=
  [0, 0, 0, 0, 0, 0, 0, 0, 0, 0, 255, 255] ++ fields

/-- Dispatch loop of `netip.ParseAddr`: the first of `.`, `:`, `%` to occur
decides the format; no such character means the string is not an IP. -/
def parseAddrScan (orig : List Char) : List Char → Option (List Nat × List Char)
  | [] => none
  | c :: rest =>
    if c = '.' then (parseIPv4 orig).map (fun f => (v4As16 f, []))
    else if c = ':' then parseIPv6 orig
    else if c = '%' then none                        -- zone with missing address
    else parseAddrScan orig rest

/-- Go `netip.ParseAddr`, returning 16 address bytes and the zone. -/
def parseAddr (s : List Char) : Option (List Nat × List Char) :=
  parseAddrScan s s

/-- Go `net.ParseIP`: nil (here `[]`) unless the string is a valid zone-free
IP literal; the result is always the 16-byte (`As16`) form. -/
def ParseIP (s : String) : GoIP :=
  match parseAddr s.data with
  | none => []
  | some (b, zone) => if zone = [] then b else []

/-! ## `net.IP.String` -/

/-- Go `net.IP.To4`: the 4-byte form of an IPv4 or IPv4-mapped address. -/
def ipTo4 (ip : GoIP) : Option GoIP :=
  if ip.length = 4 then some ip
  else if ip.length = 16 ∧ ip.take 10 = List.replicate 10 0 ∧
      ip.get? 10 = some 255 ∧ ip.get? 11 = some 255 then
    some (ip.drop 12)
  else none

/-- Go `net.uitoa` (for octets): decimal notation. -/
def uitoa (n : Nat) : String := toString n

/-- The digits `0123456789abcdef`, as Go's `hexDigit` table. -/
def hexDigitChar (n : Nat) : Char :=
  if n = 0 then '0' else if n = 1 then '1' else if n = 2 then '2'
  else if n = 3 then '3' else if n = 4 then '4' else if n = 5 then '5'
  else if n = 6 then '6' else if n = 7 then '7' else if n = 8 then '8'
  else if n = 9 then '9' else if n = 10 then 'a' else if n = 11 then 'b'
  else if n = 12 then 'c' else if n = 13 then 'd' else if n = 14 then 'e'
  else 'f'

/-- Go `net.appendHex`: lowercase hex digits of a 16-bit group, highest
non-zero nibble first, `"0"` for zero. -/
def appendHexDigits (v : Nat) : List Char :=
  if v = 0 then ['0']
  else (List.range 8).reverse.filterMap (fun j =>
    let sh := v >>> (4 * j)
    if 0 < sh then some (hexDigitChar (sh % 16)) else none)

/-- Go `net.hexString`: two lowercase hex digits per byte. -/
def hexStringGo (b : List Nat) : List Char :=
  b.flatMap (fun v => [hexDigitChar (v / 16 % 16), hexDigitChar (v % 16)])

/-- Inner scan of the zero-run finder: advance while 16-bit groups are zero. -/
def zeroRunEnd (p : List Nat) : Nat → Nat → Nat
  | 0, j => j
  | fuel + 1, j =>
    if j < 16 ∧ p.get? j = some 0 ∧ p.get? (j + 1) = some 0 then
      zeroRunEnd p fuel (j + 2)
    else j

/-- Outer loop of the zero-run finder of `net.IP.String`: the longest run of
zero 16-bit groups as `(e0, e1)`, `(-1, -1)` when none is recorded. -/
def findZeroRun (p : List Nat) : Nat → Nat → Int → Int → Int × Int
  | 0, _, e0, e1 => (e0, e1)
  | fuel + 1, i, e0, e1 =>
    if 16 ≤ i then (e0, e1)
    else
      let j := zeroRunEnd p 9 i
      if i < j ∧ e1 - e0 < (j : Int) - (i : Int) then
        findZeroRun p fuel j (i : Int) (j : Int)
      else findZeroRun p fuel (i + 2) e0 e1

/-- One 16-bit group of an IPv6 address, in lowercase hex. -/
def groupHex (p : List Nat) (i : Nat) : List Char :=
  appendHexDigits ((p.get? i).getD 0 * 256 + (p.get? (i + 1)).getD 0)

/-- Print loop of `net.IP.String` for IPv6: groups separated by `:`, with the
recorded zero run rendered as `::`. -/
def v6Print (p : List Nat) (e0 e1 : Int) : Nat → Nat → List Char
  | 0, _ => []
  | fuel + 1, i =>
    if 16 ≤ i then []
    else if (i : Int) = e0 then
      if 16 ≤ e1 then [':', ':']
      else [':', ':'] ++ groupHex p e1.toNat ++ v6Print p e0 e1 fuel (e1.toNat + 2)
    else
      (if 0 < i then [':'] else []) ++ groupHex p i ++ v6Print p e0 e1 fuel (i + 2)

/-- Go `net.IP.String`: `"<nil>"` for the nil IP, dotted decimal for IPv4 and
IPv4-mapped addresses, RFC 5952 compressed lowercase hex for IPv6, and a `?`
hex dump for any other length. -/
def ipString (ip : GoIP) : String :=
  if ip = [] then "<nil>"
  else
    match ipTo4 ip with
    | some [a, b, c, d] => uitoa a ++ "." ++ uitoa b ++ "." ++ uitoa c ++ "." ++ uitoa d
    | _ =>
      if ip.length ≠ 16 then "?" ++ ⟨hexStringGo ip⟩
      else
        let r := findZeroRun ip 9 0 (-1) (-1)
        let e0 := if r.2 - r.1 ≤ 2 then (-1 : Int) else r.1
        let e1 := if r.2 - r.1 ≤ 2 then (-1 : Int) else r.2
        ⟨v6Print ip e0 e1 9 0⟩

/-! ## `net.SplitHostPort`

Faithful to `net/ipsock.go`: the port starts after the last colon; a host
beginning with `[` must have its first `]` directly before that colon; a
bracket-free host may not itself contain a colon; stray brackets are
rejected.  The repository only branches on whether an error occurred, so the
error detail is collapsed to `Unit`. -/

/-- Go `net.SplitHostPort` on the characters of a string. -/
def SplitHostPort (hostport : List Char) : Except Unit (List Char × List Char) :=
  match lastIdx hostport ':' with
  | none => .error ()                                        -- missing port
  | some i =>
    if hostport.head? = some '[' then
      match byteIndex hostport ']' with
      | none => .error ()                                    -- missing ']'
      | some endi =>
        if endi + 1 = hostport.length then .error ()         -- missing port
        else if endi + 1 = i then
          if containsRune (hostport.drop 1) '[' = true then .error ()
          else if containsRune (hostport.drop (endi + 1)) ']' = true then .error ()
          else .ok ((hostport.drop 1).take (endi - 1), hostport.drop (i + 1))
        else if hostport.get? (endi + 1) = some ':' then .error () -- too many colons
        else .error ()                                       -- missing port
    else
      if containsRune (hostport.take i) ':' = true then .error () -- too many colons
      else if containsRune hostport '[' = true then .error ()
      else if containsRune hostport ']' = true then .error ()
      else .ok (hostport.take i, hostport.drop (i + 1))

/-! ## The nameserver model (`nameserver.go`) -/

/-- A DNS nameserver: an IP (`net.IP`, possibly nil) and a 16-bit port. -/
structure Nameserver where
  IP : GoIP
  Port : Nat
deriving DecidableEq, Repr

/-- `Nameserver.Addr`: the IP's textual form, a colon, and the decimal port
(`n.IP.String() + ":" + strconv.Itoa(int(n.Port))`). -/
def Nameserver.Addr (n : Nameserver) : String :=
  ipString n.IP ++ ":" ++ toString n.Port

/-- `NewNameserver` constructs a `Nameserver` from an IP and a port. -/
def NewNameserver (ip : GoIP) (port : Nat) : Nameserver := ⟨ip, port⟩

/-- Parse errors of the nameserver address parsers, one constructor per
`fmt.Errorf` site. -/
inductive NsParseErr where
  | invalidAddressFormat                    -- invalid nameserver address format
  | invalidIPv6Format                       -- invalid IPv6 nameserver address format
  | invalidIPAddress (host : String)        -- invalid nameserver IP address
  | portNotANumber                          -- nameserver port is not a number
  | portOutOfRange (port : Int)             -- nameserver port out of range
deriving DecidableEq, Repr

/-- Host/port extraction inlined at the top of `ParseNameserverAddr`
(nameserver.go): no colon means the whole string is the host and the port
stays empty; otherwise `net.SplitHostPort` splits, and on a split failure a
string without `]` is malformed while a fully bracketed string is unwrapped
as an IPv6 host without port. -/
def nsHostPort (a : List Char) : Except NsParseErr (List Char × List Char) :=
  if containsRune a ':' = false then .ok (a, [])
  else
    match SplitHostPort a with
    | .ok hp => .ok hp
    | .error _ =>
      if containsRune a ']' = false then .error .invalidAddressFormat
      else if a.head? = some '[' ∧ a.getLast? = some ']' then
        .ok ((a.drop 1).take (a.length - 2), [])
      else .error .invalidIPv6Format

/-- `ParseNameserverAddr` (nameserver.go): split host and port, validate the
host as an IP literal, default the port to `"53"`, parse it with
`strconv.Atoi`, and range-check it into `[0, 65535]`. -/
def ParseNameserverAddr (addr : String) : Except NsParseErr Nameserver :=
  match nsHostPort addr.data with
  | .error e => .error e
  | .ok (hostChars, portChars) =>
    let hostStr : String := ⟨hostChars⟩
    let ip := ParseIP hostStr
    if ip = [] then .error (.invalidIPAddress hostStr)
    else
      let portStr := if portChars = [] then "53".data else portChars
      match atoi portStr with
      | .error _ => .error .portNotANumber
      | .ok port =>
        if port < 0 ∨ 65535 < port then .error (.portOutOfRange port)
        else .ok ⟨ip, port.toNat⟩

/-- `parseHostAndPort` (refactored revision of nameserver.go): same splitting
grammar, with the default port `"53"` produced directly by the split. -/
def parseHostAndPort (addr : String) : Except NsParseErr (String × String) :=
  let a := addr.data
  if containsRune a ':' = true then
    match SplitHostPort a with
    | .ok hp => .ok (⟨hp.1⟩, ⟨hp.2⟩)
    | .error _ =>
      if containsRune a ']' = true then
        if a.head? = some '[' ∧ a.getLast? = some ']' then
          .ok (⟨(a.drop 1).take (a.length - 2)⟩, "53")
        else .error .invalidAddressFormat
      else .error .invalidAddressFormat
  else .ok (addr, "53")

/-- Go's `int` to `uint16` conversion: truncation modulo `2 ^ 16`. -/
def uint16ofInt (i : Int) : Nat := (i % 65536).toNat

/-- `resolveOptions.ParseNameserver` from the goja-based `module.go`: splits
on a colon when present (otherwise the default port string `"53"`), runs
`strconv.Atoi` on the port, and builds the `Nameserver` with
`NewNameserver(net.ParseIP(hostStr), uint16(port))` — with no range check on
the port and no nil check on the parsed IP. -/
def resolveOptionsParseNameserver (nameserver : String) : Except NsParseErr Nameserver :=
  let a := nameserver.data
  match (if containsRune a ':' = true then
      match SplitHostPort a with
      | .ok hp => Except.ok hp
      | .error _ => Except.error NsParseErr.invalidAddressFormat
    else Except.ok (a, "53".data)) with
  | .error e => .error e
  | .ok (hostStr, portStr) =>
    match atoi portStr with
    | .error _ => .error .portNotANumber
    | .ok port => .ok (NewNameserver (ParseIP ⟨hostStr⟩) (uint16ofInt port))

/-! ## The record-type model (`record_type.go`) -/

/-- `RecordType`: the enumerated DNS record types the module supports. -/
inductive RecordType where
  | A
  | AAAA
  | CNAME
  | NS
  | PTR
deriving DecidableEq, Repr, Fintype

/-- Numeric (wire) value of each `RecordType` constant, as declared in
`record_type.go`; the values are aligned with the protocol codes. -/
def RecordType.code : RecordType → Nat
  | .A => 1
  | .AAAA => 28
  | .CNAME => 5
  | .NS => 2
  | .PTR => 12

/-- Modelled from the spec: the enumer-generated `String()` method of
`RecordType` (the generated file `record_type_gen.go` is absent from the
sources); it returns the canonical name, the constant's name with the
`RecordType` prefix trimmed. -/
def RecordType.name : RecordType → String
  | .A => "A"
  | .AAAA => "AAAA"
  | .CNAME => "CNAME"
  | .NS => "NS"
  | .PTR => "PTR"

/-- Error value of the record-type name lookup. -/
inductive RecordTypeErr where
  | unsupportedRecordType
deriving DecidableEq, Repr

/-- Modelled from the spec: the enumer-generated `RecordTypeString` function
(the generated file `record_type_gen.go` is absent from the sources); a
case-sensitive lookup by canonical name that fails on any name outside the
supported set rather than defaulting. -/
def RecordTypeString (s : String) : Except RecordTypeErr RecordType :=
  if s = "A" then .ok .A
  else if s = "AAAA" then .ok .AAAA
  else if s = "CNAME" then .ok .CNAME
  else if s = "NS" then .ok .NS
  else if s = "PTR" then .ok .PTR
  else .error .unsupportedRecordType

/-! ## The resolution client (`client.go`) -/

/-- Fields of a `dns.NAPTR` answer record used by the client. -/
structure NAPTR where
  Order : Nat
  Preference : Nat
  Flags : String
  Service : String
  Regexp : String
  Replacement : String
deriving DecidableEq, Repr

/-- Shape of an answer record as the decoding `switch` of `Client.Resolve`
distinguishes them: `A` and `AAAA` carry an IP, `NAPTR` carries the record,
and every other concrete type falls to the `default` arm, represented here by
its Go type name. -/
inductive Answer where
  | A (ip : GoIP)
  | AAAA (ip : GoIP)
  | NAPTR (r : NAPTR)
  | other (typeName : String)
deriving DecidableEq, Repr

/-- Errors produced by `Client.Resolve` after the transport exchange. -/
inductive DNSErrorKind where
  | nonExistingDomain
  | otherServerFailure
deriving DecidableEq, Repr

/-- Typed errors of `Client.Resolve` (transport errors excluded, as they are
produced by the external exchange). -/
inductive ResolveError where
  | unsupportedRecordType (recordType : String)
  | dnsError (rcode : Nat) (kind : DNSErrorKind) (msg : String)
  | unhandledAnswerType (typeName : String)
deriving DecidableEq, Repr

/-- Modelled from the spec: `newDNSError` (its defining file is absent from
the sources; only the call site in `Client.Resolve` remains): a `DNSError`
carrying the numeric response status and a classification in which status 3
(name error) is "non-existing domain", distinguished from every other
server-side failure. -/
def newDNSError (rcode : Nat) (msg : String) : ResolveError :=
  .dnsError rcode (if rcode = 3 then .nonExistingDomain else .otherServerFailure) msg

/-- `fmtNAPTRAnswer` (client.go): order, preference, the three quoted text
fields and the replacement, space-separated. -/
def fmtNAPTRAnswer (answer : NAPTR) : String :=
  toString answer.Order ++ " " ++
  toString answer.Preference ++ " " ++
  "\"" ++ answer.Flags ++ "\" " ++
  "\"" ++ answer.Service ++ "\" " ++
  "\"" ++ answer.Regexp ++ "\" " ++
  answer.Replacement

/-- A double-quoted string, as the spec's notation `"flags"` etc. -/
def quoted (s : String) : String := "\"" ++ s ++ "\""

/-- Written from the spec's words (§4.3), for comparison with
`fmtNAPTRAnswer`: "a single space-joined string in the fixed field order
order preference quoted-flags quoted-service quoted-regexp replacement, with
the three text fields individually double-quoted regardless of content". -/
def naptrSpecFormat (r : NAPTR) : String :=
  String.intercalate " "
    [toString r.Order, toString r.Preference,
     quoted r.Flags, quoted r.Service, quoted r.Regexp, r.Replacement]

/-- Answer-decoding loop of `Client.Resolve`: A and AAAA records contribute
their IP's textual form, NAPTR records their formatted string, in server
order; any record of another type aborts the whole call with an
`unhandledAnswerType` error. -/
def decodeAnswers : List Answer → Except ResolveError (List String)
  | [] => .ok []
  | .A ip :: rest =>
    match decodeAnswers rest with
    | .ok l => .ok (ipString ip :: l)
    | .error e => .error e
  | .AAAA ip :: rest =>
    match decodeAnswers rest with
    | .ok l => .ok (ipString ip :: l)
    | .error e => .error e
  | .NAPTR r :: rest =>
    match decodeAnswers rest with
    | .ok l => .ok (fmtNAPTRAnswer r :: l)
    | .error e => .error e
  | .other t :: _ => .error (.unhandledAnswerType t)

/-- Response-handling phase of `Client.Resolve` (client.go): a non-success
status code returns `newDNSError(response.Rcode, "DNS query failed")` before
the decoding loop; on success the answers are decoded in order. -/
def resolveResponse (rcode : Nat) (answers : List Answer) : Except ResolveError (List String) :=
  if rcode ≠ 0 then .error (newDNSError rcode "DNS query failed")
  else decodeAnswers answers

/-- The outbound side of one `Client.Resolve` call: the question name and
type set by `message.SetQuestion(query+".", uint16(concreteType))` and the
dial target `nameserver.Addr()` passed to `ExchangeContext`. -/
structure ExchangeRequest where
  questionName : String
  questionType : Nat
  dialTarget : String
deriving DecidableEq, Repr

/-- Query-construction phase of `Client.Resolve` (client.go): the record type
name is resolved through `RecordTypeString` (failing with the
`ErrUnsupportedRecordType` wrap), the question name is `query + "."`, the
question type is the record type's numeric value, and the exchange dials
`nameserver.Addr()`. -/
def resolveRequest (query recordType : String) (nameserver : Nameserver) :
    Except ResolveError ExchangeRequest :=
  match RecordTypeString recordType with
  | .error _ => .error (.unsupportedRecordType recordType)
  | .ok rt => .ok ⟨query ++ ".", rt.code, nameserver.Addr⟩

/-- The record-type-to-wire-code conversion of the earlier revision of
`Client.Resolve` (the `switch rt` statement): cases exist only for
`RecordTypeA` and `RecordTypeAAAA`, so for every other record type the
`concreteType` variable keeps its zero value. -/
def concreteTypeSwitch (rt : RecordType) : Nat :=
  match rt with
  | .A => 1      -- dns.TypeA
  | .AAAA => 28  -- dns.TypeAAAA
  | _ => 0       -- no case: concreteType stays 0


/-! ## Helper lemmas -/

theorem countRune_eq_zero_of_not_contains (l : List Char) (c : Char)
    (h : containsRune l c = false) : countRune l c = 0 := by
  induction l with
  | nil => rfl
  | cons a as ih =>
    by_cases hac : a = c
    · simp [containsRune, hac] at h
    · simp only [containsRune, if_neg hac] at h
      simp [countRune, hac, ih h]

theorem contains_of_two_le_count (l : List Char) (c : Char)
    (h : 2 ≤ countRune l c) : containsRune l c = true := by
  by_contra hc
  have h0 := countRune_eq_zero_of_not_contains l c (by simpa using hc)
  omega

theorem lastIdx_some_of_contains (l : List Char) (c : Char)
    (h : containsRune l c = true) : ∃ i, lastIdx l c = some i := by
  induction l with
  | nil => simp [containsRune] at h
  | cons a as ih =>
    cases hL : lastIdx as c with
    | some j => exact ⟨j + 1, by simp [lastIdx, hL]⟩
    | none =>
      by_cases hac : a = c
      · exact ⟨0, by simp [lastIdx, hL, hac]⟩
      · simp only [containsRune, if_neg hac] at h
        obtain ⟨i, hi⟩ := ih h
        simp [hi] at hL

theorem byteIndex_eq_none_of_not_contains (l : List Char) (c : Char)
    (h : containsRune l c = false) : byteIndex l c = none := by
  induction l with
  | nil => rfl
  | cons a as ih =>
    by_cases hac : a = c
    · simp [containsRune, hac] at h
    · simp only [containsRune, if_neg hac] at h
      simp [byteIndex, hac, ih h]

theorem contains_take_lastIdx (l : List Char) (c : Char) :
    ∀ i, 2 ≤ countRune l c → lastIdx l c = some i →
      containsRune (l.take i) c = true := by
  induction l with
  | nil => intro i h _; simp [countRune] at h
  | cons a as ih =>
    intro i h hl
    cases hL : lastIdx as c with
    | some j =>
      simp only [lastIdx, hL] at hl
      injection hl with hj
      subst hj
      by_cases hac : a = c
      · simp [List.take, containsRune, hac]
      · have h2 : 2 ≤ countRune as c := by simpa [countRune, hac] using h
        simp [List.take, containsRune, hac, ih j h2 hL]
    | none =>
      have hnc : containsRune as c = false := by
        by_contra hcc
        obtain ⟨k, hk⟩ := lastIdx_some_of_contains as c (by simpa using hcc)
        simp [hk] at hL
      have h0 := countRune_eq_zero_of_not_contains as c hnc
      by_cases hac : a = c <;> simp [countRune, hac, h0] at h

theorem SplitHostPort_error_of_multicolon (l : List Char)
    (h2 : 2 ≤ countRune l ':') (hnb : containsRune l ']' = false) :
    SplitHostPort l = .error () := by
  obtain ⟨i, hi⟩ := lastIdx_some_of_contains l ':' (contains_of_two_le_count l ':' h2)
  by_cases hh : l.head? = some '['
  · simp [SplitHostPort, hi, hh, byteIndex_eq_none_of_not_contains l ']' hnb]
  · simp [SplitHostPort, hi, hh, contains_take_lastIdx l ':' i h2 hi]

theorem decodeAnswers_unhandled (answers : List Answer) (t : String)
    (h : Answer.other t ∈ answers) :
    ∃ u, decodeAnswers answers = .error (.unhandledAnswerType u) := by
  induction answers with
  | nil => simp at h
  | cons a rest ih =>
    cases a with
    | A ip =>
      obtain ⟨u, hu⟩ := ih (by simpa using h)
      exact ⟨u, by simp [decodeAnswers, hu]⟩
    | AAAA ip =>
      obtain ⟨u, hu⟩ := ih (by simpa using h)
      exact ⟨u, by simp [decodeAnswers, hu]⟩
    | NAPTR r =>
      obtain ⟨u, hu⟩ := ih (by simpa using h)
      exact ⟨u, by simp [decodeAnswers, hu]⟩
    | other u => exact ⟨u, by simp [decodeAnswers]⟩

/-! ## Claims -/

/-- Claim C1: the nameserver address parser maps each documented input shape
to the documented result — a string without a colon is wholly the host with
port 53; `203.0.113.1` parses to that address with port 53 and
`203.0.113.1:5353` with port 5353; `[fd00::1]` parses to host `fd00::1` with
port 53 and `[fd00::1]:5353` with port 5353; and every bare unbracketed
string with multiple colons and no `]` fails with the invalid-address-format
error. -/
theorem claim_C1_nameserver_addr_shapes :
    (∀ s : String, containsRune s.data ':' = false → parseHostAndPort s = .ok (s, "53"))
    ∧ (ParseNameserverAddr "203.0.113.1").map (fun ns => (ipString ns.IP, ns.Port))
        = .ok ("203.0.113.1", 53)
    ∧ (ParseNameserverAddr "203.0.113.1:5353").map (fun ns => (ipString ns.IP, ns.Port))
        = .ok ("203.0.113.1", 5353)
    ∧ (ParseNameserverAddr "[fd00::1]").map (fun ns => (ipString ns.IP, ns.Port))
        = .ok ("fd00::1", 53)
    ∧ (ParseNameserverAddr "[fd00::1]:5353").map (fun ns => (ipString ns.IP, ns.Port))
        = .ok ("fd00::1", 5353)
    ∧ (∀ s : String, 2 ≤ countRune s.data ':' → containsRune s.data ']' = false →
        ParseNameserverAddr s = .error .invalidAddressFormat) := by
  refine ⟨?_, by decide, by decide, by decide, by decide, ?_⟩
  · intro s h
    simp [parseHostAndPort, h]
  · intro s h2 hnb
    have hc : containsRune s.data ':' = true := contains_of_two_le_count _ _ h2
    have hsp := SplitHostPort_error_of_multicolon s.data h2 hnb
    simp [ParseNameserverAddr, nsHostPort, hc, hsp, hnb]

/-- Closed instance of claim C1: the no-colon shape at a concrete string, and
the documented failure of the bare unbracketed IPv6 literal `fd00::1`. -/
theorem claim_C1_witness :
    parseHostAndPort "203.0.113.1" = .ok ("203.0.113.1", "53")
    ∧ ParseNameserverAddr "fd00::1" = .error .invalidAddressFormat :=
  ⟨claim_C1_nameserver_addr_shapes.1 "203.0.113.1" (by decide),
   claim_C1_nameserver_addr_shapes.2.2.2.2.2 "fd00::1" (by decide) (by decide)⟩

/-- Claim C2 (refuted): `Client.Resolve` sets the question name to
`query + "."` unconditionally, so the trailing-dot normalization is not
idempotent: the repository's own test domain
`9.8.7.6.5.4.3.2.1.0.e164.arpa.` (already fully qualified) produces the
question name `9.8.7.6.5.4.3.2.1.0.e164.arpa..`, which differs from the
question name produced for the same domain without its trailing dot. -/
theorem claim_C2_trailing_dot_not_idempotent :
    (resolveRequest "9.8.7.6.5.4.3.2.1.0.e164.arpa." "A" ⟨[], 0⟩).map
        (fun r => r.questionName)
      = .ok "9.8.7.6.5.4.3.2.1.0.e164.arpa.."
    ∧ (resolveRequest "9.8.7.6.5.4.3.2.1.0.e164.arpa" "A" ⟨[], 0⟩).map
        (fun r => r.questionName)
      = .ok "9.8.7.6.5.4.3.2.1.0.e164.arpa."
    ∧ ("9.8.7.6.5.4.3.2.1.0.e164.arpa.." : String) ≠ "9.8.7.6.5.4.3.2.1.0.e164.arpa." :=
  ⟨by decide, by decide, by decide⟩

/-- Claim C3: on a success status, an answer section containing any record
outside the decodable set (A, AAAA, NAPTR) makes `Client.Resolve` fail with
the unhandled-answer-type error and return no result list at all, no matter
how many earlier answers decoded successfully. -/
theorem claim_C3_unhandled_answer_aborts :
    ∀ (answers : List Answer) (t : String), Answer.other t ∈ answers →
      ∃ u, resolveResponse 0 answers = .error (.unhandledAnswerType u) := by
  intro answers t h
  simpa [resolveResponse] using decodeAnswers_unhandled answers t h

/-- Closed instance of claim C3: an A record decodes before a TXT record is
hit, yet the call returns only the unhandled-answer-type error. -/
theorem claim_C3_witness :
    ∃ u, resolveResponse 0 [Answer.A (ParseIP "203.0.113.1"), Answer.other "*dns.TXT"]
      = .error (.unhandledAnswerType u) :=
  claim_C3_unhandled_answer_aborts _ "*dns.TXT" (by decide)

/-- Claim C4: a response with a non-success status makes `Client.Resolve`
return the `DNSError` carrying that numeric status, classified so that
"non-existing domain" (status 3) is distinguishable from every other
server-side failure, and no answer record is decoded — the result is the
same as for an empty answer section. -/
theorem claim_C4_nonsuccess_status_dns_error :
    ∀ (rcode : Nat) (answers : List Answer), rcode ≠ 0 →
      ∃ kind, resolveResponse rcode answers = .error (.dnsError rcode kind "DNS query failed")
        ∧ (kind = DNSErrorKind.nonExistingDomain ↔ rcode = 3)
        ∧ resolveResponse rcode answers = resolveResponse rcode [] := by
  intro rcode answers h
  refine ⟨if rcode = 3 then .nonExistingDomain else .otherServerFailure, ?_, ?_, ?_⟩
  · simp [resolveResponse, h, newDNSError]
  · by_cases h3 : rcode = 3 <;> simp [h3]
  · simp [resolveResponse, h]

/-- Closed instance of claim C4: status 3 with a pending answer yields the
non-existing-domain error and decodes nothing. -/
theorem claim_C4_witness :
    ∃ kind, resolveResponse 3 [Answer.other "*dns.TXT"]
        = .error (.dnsError 3 kind "DNS query failed")
      ∧ (kind = DNSErrorKind.nonExistingDomain ↔ 3 = 3)
      ∧ resolveResponse 3 [Answer.other "*dns.TXT"] = resolveResponse 3 [] :=
  claim_C4_nonsuccess_status_dns_error 3 [Answer.other "*dns.TXT"] (by decide)

/-- Claim C5: every NAPTR answer decodes to the order and preference in
decimal followed by the flags, service and regexp fields each double-quoted
(also when empty) and the replacement, space-joined in exactly that order;
the documented example record decodes to its literal formatted form. -/
theorem claim_C5_naptr_format :
    (∀ r : NAPTR, fmtNAPTRAnswer r = naptrSpecFormat r)
    ∧ fmtNAPTRAnswer ⟨100, 10, "U", "E2U+sip", "!^.*$!sip:customer-service@example.com!", "."⟩
        = "100 10 \"U\" \"E2U+sip\" \"!^.*$!sip:customer-service@example.com!\" ."
    ∧ decodeAnswers [Answer.NAPTR ⟨100, 10, "U", "E2U+sip",
        "!^.*$!sip:customer-service@example.com!", "."⟩]
        = .ok ["100 10 \"U\" \"E2U+sip\" \"!^.*$!sip:customer-service@example.com!\" ."]
    ∧ fmtNAPTRAnswer ⟨0, 0, "", "", "", "."⟩ = "0 0 \"\" \"\" \"\" ." := by
  refine ⟨?_, by decide, by decide, by decide⟩
  intro r
  obtain ⟨o, p, f, sv, re, rep⟩ := r
  apply String.ext
  simp [fmtNAPTRAnswer, naptrSpecFormat, quoted, String.intercalate,
    String.intercalate.go, String.data_append]

/-- Claim C6: for every supported record-type name, parsing the name and
converting the result back to its canonical name is the identity; every
string outside the supported set — including lowercase variants, the lookup
being case-sensitive — fails with the unsupported-record-type error rather
than defaulting. -/
theorem claim_C6_record_type_roundtrip :
    (∀ rt : RecordType, RecordTypeString (RecordType.name rt) = .ok rt)
    ∧ (∀ s : String, (∀ rt : RecordType, s ≠ RecordType.name rt) →
        RecordTypeString s = .error .unsupportedRecordType)
    ∧ RecordTypeString "a" = .error .unsupportedRecordType
    ∧ RecordTypeString "cname" = .error .unsupportedRecordType := by
  refine ⟨?_, ?_, by decide, by decide⟩
  · intro rt; cases rt <;> rfl
  · intro s h
    have hA := h RecordType.A
    have hAAAA := h RecordType.AAAA
    have hC := h RecordType.CNAME
    have hN := h RecordType.NS
    have hP := h RecordType.PTR
    simp only [RecordType.name] at hA hAAAA hC hN hP
    simp [RecordTypeString, hA, hAAAA, hC, hN, hP]

/-- Closed instance of claim C6: the round trip at CNAME and the failure of
an unsupported name. -/
theorem claim_C6_witness :
    RecordTypeString (RecordType.name RecordType.CNAME) = .ok RecordType.CNAME
    ∧ RecordTypeString "TXT" = .error .unsupportedRecordType :=
  ⟨claim_C6_record_type_roundtrip.1 RecordType.CNAME,
   claim_C6_record_type_roundtrip.2.1 "TXT" (by decide)⟩

/-- Claim C7 (refuted for the goja module's parser): `ParseNameserverAddr`
rejects a non-numeric port, rejects 999999 as out of range, and defaults an
absent or empty port substring to 53 — but `resolveOptions.ParseNameserver`
of the goja-based module performs no range check and silently truncates the
out-of-range port 999999 to 16959 (999999 mod 65536) in the returned
nameserver's 16-bit port field. -/
theorem claim_C7_port_truncation :
    resolveOptionsParseNameserver "203.0.113.1:999999"
      = .ok ⟨[0, 0, 0, 0, 0, 0, 0, 0, 0, 0, 255, 255, 203, 0, 113, 1], 16959⟩
    ∧ ParseNameserverAddr "203.0.113.1:999999" = .error (.portOutOfRange 999999)
    ∧ ParseNameserverAddr "203.0.113.1:abc" = .error .portNotANumber
    ∧ (ParseNameserverAddr "203.0.113.1:").map (fun ns => ns.Port) = .ok 53
    ∧ (ParseNameserverAddr "203.0.113.1").map (fun ns => ns.Port) = .ok 53 :=
  ⟨by decide, by decide, by decide, by decide, by decide⟩

/-- Claim C8 (refuted for the goja module's parser): `ParseNameserverAddr`
rejects the non-IP host `not-an-ip` with the invalid-IP-address error, but
`resolveOptions.ParseNameserver` of the goja-based module returns a
`Nameserver` whose IP is nil for the same input — a nameserver that would
dial `<nil>:53` — so not every returned nameserver holds a valid parsed
IP. -/
theorem claim_C8_nil_ip_nameserver :
    resolveOptionsParseNameserver "not-an-ip" = .ok ⟨[], 53⟩
    ∧ ParseNameserverAddr "not-an-ip" = .error (.invalidIPAddress "not-an-ip")
    ∧ Nameserver.Addr ⟨[], 53⟩ = "<nil>:53" :=
  ⟨by decide, by decide, by decide⟩

/-- Claim C9 (refuted for the earlier client revision): the `switch`
converting the parsed record type to the wire code covers only A and AAAA,
so CNAME, NS and PTR — all accepted by the record-type parser — get question
type 0 instead of their protocol codes 5, 2 and 12; the current client
revision uses the aligned numeric values directly and produces the correct
codes. -/
theorem claim_C9_zero_question_type :
    concreteTypeSwitch RecordType.CNAME = 0
    ∧ concreteTypeSwitch RecordType.NS = 0
    ∧ concreteTypeSwitch RecordType.PTR = 0
    ∧ RecordType.code RecordType.CNAME = 5
    ∧ RecordType.code RecordType.NS = 2
    ∧ RecordType.code RecordType.PTR = 12
    ∧ (resolveRequest "example.com" "CNAME" ⟨[], 0⟩).map (fun r => r.questionType)
        = .ok 5 := by
  decide

/-- Claim C10: `Nameserver.Addr` is the IP's textual form, a colon and the
decimal port, with no brackets added for IPv6 — the bracketed parser input
`[fd00::1]` yields the unbracketed dial string `fd00::1:53` and a nil IP
yields `<nil>:53` — and the request built by `Client.Resolve` hands exactly
`nameserver.Addr()` to the transport as the dial target. -/
theorem claim_C10_addr_unbracketed :
    (ParseNameserverAddr "[fd00::1]").map Nameserver.Addr = .ok "fd00::1:53"
    ∧ Nameserver.Addr ⟨[], 53⟩ = "<nil>:53"
    ∧ (∀ (q rt : String) (ns : Nameserver) (r : ExchangeRequest),
        resolveRequest q rt ns = .ok r → r.dialTarget = ns.Addr) := by
  refine ⟨by decide, by decide, ?_⟩
  intro q rt ns r h
  unfold resolveRequest at h
  cases hR : RecordTypeString rt with
  | error e => rw [hR] at h; cases h
  | ok rtv =>
    rw [hR] at h
    injection h with h'
    rw [← h']

/-- Closed instance of claim C10: the dial target of a request built for a
concrete nameserver equals that nameserver's `Addr()` string. -/
theorem claim_C10_witness :
    ExchangeRequest.dialTarget ⟨"k6.io.", 1, "203.0.113.1:53"⟩
      = Nameserver.Addr ⟨[0, 0, 0, 0, 0, 0, 0, 0, 0, 0, 255, 255, 203, 0, 113, 1], 53⟩ :=
  claim_C10_addr_unbracketed.2.2 "k6.io" "A"
    ⟨[0, 0, 0, 0, 0, 0, 0, 0, 0, 0, 255, 255, 203, 0, 113, 1], 53⟩
    ⟨"k6.io.", 1, "203.0.113.1:53"⟩ (by decide)
